import Mathlib

/-!
Shallow embedding of the PA-CRM-App backend (TypeScript/Prisma) sufficient to
settle the frozen claims about tenant isolation, commission derivation,
document versioning, OCR gating, authentication and role gating.

The relational store (Prisma against SQLite) is modelled as lists of rows,
one list per table, carried in a `DB` record.  Prisma's `findFirst` /
`findUnique` become `List.find?`, `create` appends a row, `update` rewrites
the unique row with the given primary key (failing when absent, as Prisma
throws `P2025`), and `delete` removes it.  In Prisma, a field whose value is
`undefined` in an `update` payload is *omitted*, leaving the column
unchanged; the embedding mirrors this with `Option` merges.  Generated ids
(cuid/uuid) are passed in as explicit parameters.  Monetary `REAL` columns
are modelled as rationals.
-/

set_option linter.unusedVariables false

/-- A User row, per the initial migration: `role` defaults to "USER",
`email` is globally unique. Store-managed timestamps are omitted. -/
structure User where
  id : String
  email : String
  password : String
  firstName : String
  lastName : String
  role : String
  tenantId : String
  deriving Repr, DecidableEq

/-- A Fee row. `createFee` supplies no `status`, and the migration declares
no default for it, so the field is optional in the model with `none` meaning
"never set by the service layer". -/
structure Fee where
  id : String
  caseId : String
  amount : ℚ
  description : String
  type : String
  status : Option String
  dueDate : Nat
  paidDate : Option Nat
  tenantId : String
  createdBy : String
  deriving Repr, DecidableEq

/-- A Commission row. As with `Fee.status`, `createCommission` supplies no
`status`, so it is optional in the model. -/
structure Commission where
  id : String
  feeId : String
  userId : String
  amount : ℚ
  percentage : ℚ
  status : Option String
  paidDate : Option Nat
  tenantId : String
  deriving Repr, DecidableEq

/-- A Template row (migration `add_templates`); `vars` is the source column
`variables`, renamed because `variables` is a Lean keyword. -/
structure Template where
  id : String
  name : String
  description : Option String
  content : String
  category : String
  vars : Option String
  tenantId : String
  createdBy : String
  deriving Repr, DecidableEq

/-- A Document row; `version` defaults to 1 in the migration. -/
structure Document where
  id : String
  name : String
  type : String
  mimeType : String
  size : Nat
  url : String
  ocrText : Option String
  metadata : Option String
  version : Nat
  caseId : Option String
  tenantId : String
  createdBy : String
  deriving Repr, DecidableEq

/-- A DocumentVersion row. -/
structure DocumentVersion where
  id : String
  documentId : String
  version : Nat
  url : String
  ocrText : Option String
  metadata : Option String
  createdBy : String
  deriving Repr, DecidableEq

/-- The relational store: one list of rows per table touched by the claims. -/
structure DB where
  users : List User
  fees : List Fee
  commissions : List Commission
  templates : List Template
  documents : List Document
  documentVersions : List DocumentVersion
  deriving Repr, DecidableEq

/-! ### FeeService (src/src/services/feeService.ts) -/

/-- `CreateFeeData` from feeService.ts. -/
structure CreateFeeData where
  caseId : String
  amount : ℚ
  description : String
  type : String
  dueDate : Nat
  tenantId : String
  createdBy : String
  deriving Repr, DecidableEq

/-- `CreateCommissionData` from feeService.ts. -/
structure CreateCommissionData where
  feeId : String
  userId : String
  percentage : ℚ
  tenantId : String
  deriving Repr, DecidableEq

/-- `FeeService.createFee`: `prisma.fee.create({ data })`. -/
def FeeService.createFee (newId : String) (data : CreateFeeData) (db : DB) :
    Fee × DB :=
  let fee : Fee :=
    { id := newId, caseId := data.caseId, amount := data.amount,
      description := data.description, type := data.type, status := none,
      dueDate := data.dueDate, paidDate := none, tenantId := data.tenantId,
      createdBy := data.createdBy }
  (fee, { db with fees := db.fees ++ [fee] })

/-- `FeeService.getFee`: `prisma.fee.findFirst({ where: { id, tenantId } })`
(the `include` of commissions/users only enriches the returned object and is
irrelevant to presence). -/
def FeeService.getFee (id tenantId : String) (db : DB) : Option Fee :=
  db.fees.find? (fun f => f.id == id && f.tenantId == tenantId)

/-- `FeeService.updateFeeStatus`: `prisma.fee.update({ where: { id }, data:
{ status, ...(paidDate ? { paidDate } : {}) } })`.  Note the `where` clause
keys on `id` only; the `tenantId` parameter is accepted but unused, exactly
as in the source.  Prisma update throws when no row has the id. -/
def FeeService.updateFeeStatus (id tenantId : String) (status : String)
    (paidDate : Option Nat) (db : DB) : Except String (Fee × DB) :=
  match db.fees.find? (fun f => f.id == id) with
  | none => .error "NotFound"
  | some f =>
    let f2 : Fee :=
      { f with status := some status,
               paidDate := match paidDate with
                           | some d => some d
                           | none => f.paidDate }
    .ok (f2, { db with fees := db.fees.map (fun g => if g.id == id then f2 else g) })

/-- `FeeService.createCommission`: looks up the Fee with
`prisma.fee.findUnique({ where: { id: data.feeId } })` (no tenant filter),
throws "Fee not found" when absent, computes
`amount = (fee.amount * data.percentage) / 100` and persists the
Commission. -/
def FeeService.createCommission (newId : String) (data : CreateCommissionData)
    (db : DB) : Except String (Commission × DB) :=
  match db.fees.find? (fun f => f.id == data.feeId) with
  | none => .error "Fee not found"
  | some fee =>
    let amount := fee.amount * data.percentage / 100
    let c : Commission :=
      { id := newId, feeId := data.feeId, userId := data.userId,
        amount := amount, percentage := data.percentage, status := none,
        paidDate := none, tenantId := data.tenantId }
    .ok (c, { db with commissions := db.commissions ++ [c] })

/-- `FeeService.updateCommissionStatus`: `prisma.commission.update({ where:
{ id }, ... })`; again the `tenantId` parameter is unused in the source. -/
def FeeService.updateCommissionStatus (id tenantId : String) (status : String)
    (paidDate : Option Nat) (db : DB) : Except String (Commission × DB) :=
  match db.commissions.find? (fun c => c.id == id) with
  | none => .error "NotFound"
  | some c =>
    let c2 : Commission :=
      { c with status := some status,
               paidDate := match paidDate with
                           | some d => some d
                           | none => c.paidDate }
    .ok (c2, { db with commissions := db.commissions.map (fun g => if g.id == id then c2 else g) })

/-! ### TemplateService (second class in feeService.ts) -/

/-- `CreateTemplateData` from the template service. -/
structure CreateTemplateData where
  name : String
  description : Option String
  content : String
  category : String
  vars : Option String
  tenantId : String
  createdBy : String
  deriving Repr, DecidableEq

/-- `UpdateTemplateData`: every field optional; `none` models a field left
`undefined` in the payload, which Prisma omits from the update. -/
structure UpdateTemplateData where
  name : Option String
  description : Option String
  content : Option String
  category : Option String
  vars : Option String
  deriving Repr, DecidableEq

/-- Merge an `UpdateTemplateData` into a row the way Prisma applies a
partial update payload: provided fields overwrite, absent fields persist. -/
def applyTemplateUpdate (t : Template) (d : UpdateTemplateData) : Template :=
  { t with
    name := d.name.getD t.name,
    description := match d.description with
                   | some x => some x
                   | none => t.description,
    content := d.content.getD t.content,
    category := d.category.getD t.category,
    vars := match d.vars with
             | some x => some x
             | none => t.vars }

/-- `TemplateService.createTemplate`: `prisma.template.create({ data })`. -/
def TemplateService.createTemplate (newId : String) (data : CreateTemplateData)
    (db : DB) : Template × DB :=
  let t : Template :=
    { id := newId, name := data.name, description := data.description,
      content := data.content, category := data.category,
      vars := data.vars, tenantId := data.tenantId,
      createdBy := data.createdBy }
  (t, { db with templates := db.templates ++ [t] })

/-- `TemplateService.getTemplate`: `prisma.template.findFirst({ where:
{ id, tenantId } })`. -/
def TemplateService.getTemplate (id tenantId : String) (db : DB) :
    Option Template :=
  db.templates.find? (fun t => t.id == id && t.tenantId == tenantId)

/-- `TemplateService.updateTemplate`: `prisma.template.update({ where:
{ id }, data })` — keyed on `id` only, the `tenantId` parameter unused, as
in the source. -/
def TemplateService.updateTemplate (id tenantId : String)
    (data : UpdateTemplateData) (db : DB) : Except String (Template × DB) :=
  match db.templates.find? (fun t => t.id == id) with
  | none => .error "NotFound"
  | some t =>
    let t2 := applyTemplateUpdate t data
    .ok (t2, { db with templates := db.templates.map (fun g => if g.id == id then t2 else g) })

/-- `TemplateService.deleteTemplate`: `prisma.template.delete({ where:
{ id } })` — keyed on `id` only, `tenantId` unused, as in the source. -/
def TemplateService.deleteTemplate (id tenantId : String) (db : DB) :
    Except String DB :=
  match db.templates.find? (fun t => t.id == id) with
  | none => .error "NotFound"
  | some _ =>
    .ok { db with templates := db.templates.filter (fun t => !(t.id == id)) }

/-! ### DocumentService (documentService.ts) -/

/-- A binary upload buffer (`Buffer` in the source), as a byte list. -/
abbrev Blob : Type := List Nat

/-- Models `process.env.DO_SPACES_CDN_URL`, the CDN base of the object
store; its concrete value never matters to any claim. -/
def doSpacesCdnUrl : String := "https://cdn.example"

/-- `uploadToSpaces`: pushes the blob to object storage under `filename`
and returns the retrieval URL, which in the source is
`DO_SPACES_CDN_URL + "/" + filename`.  The upload itself is an external
side effect with no bearing on the store model. -/
def uploadToSpaces (file : Blob) (filename : String) (mimeType : String) :
    String :=
  doSpacesCdnUrl ++ "/" ++ filename

/-- `extractTextFromDocument`: the OCR stub in the source returns this
fixed placeholder text for every input. -/
def extractTextFromDocument (file : Blob) (mimeType : String) : String :=
  "Sample extracted text from document"

/-- The fixed OCR MIME-type allow-list used by both `createDocument` and
`updateDocument`. -/
def ocrAllowList : List String :=
  ["application/pdf", "image/jpeg", "image/png"]

/-- `CreateDocumentData` from documentService.ts. -/
structure CreateDocumentData where
  name : String
  type : String
  mimeType : String
  size : Nat
  caseId : Option String
  tenantId : String
  createdBy : String
  metadata : Option String
  deriving Repr, DecidableEq

/-- `DocumentService.createDocument`: uploads under a fresh
`uuid + "-" + data.name` key, runs the OCR stub when `data.mimeType` is in
the allow-list, and creates the Document row.  The explicit `metadata`
argument (already serialized; `none` when the caller passed none, in which
case the column stays NULL) overrides `data.metadata` in the spread, as in
the source; `version` takes its schema default 1.  `uuid` is the generated
uuidv4, `newId` the row id generated by the store. -/
def DocumentService.createDocument (newId uuid : String) (file : Blob)
    (data : CreateDocumentData) (metadata : Option String) (db : DB) :
    Document × DB :=
  let filename := uuid ++ "-" ++ data.name
  let url := uploadToSpaces file filename data.mimeType
  let ocrText : Option String :=
    if ocrAllowList.contains data.mimeType then
      some (extractTextFromDocument file data.mimeType)
    else none
  let doc : Document :=
    { id := newId, name := data.name, type := data.type,
      mimeType := data.mimeType, size := data.size, url := url,
      ocrText := ocrText, metadata := metadata, version := 1,
      caseId := data.caseId, tenantId := data.tenantId,
      createdBy := data.createdBy }
  (doc, { db with documents := db.documents ++ [doc] })

/-- `DocumentService.getDocument`: `prisma.document.findFirst({ where:
{ id, tenantId } })` (the `include` of versions only enriches the result). -/
def DocumentService.getDocument (id tenantId : String) (db : DB) :
    Option Document :=
  db.documents.find? (fun d => d.id == id && d.tenantId == tenantId)

/-- `DocumentService.updateDocument`: loads the document tenant-scoped
(`findFirst { id, tenantId }`), throws "Document not found" when absent;
uploads the new blob under a fresh key; re-runs the OCR allow-list check
against the *stored* `document.mimeType`; creates a DocumentVersion row
with `version = document.version + 1` carrying the NEW `url`/`ocrText`/
`metadata`; then updates the Document row (`where: { id }`).  Fields whose
value is `undefined` in the update payload (`ocrText` when the allow-list
check fails, `metadata` when none is supplied) are omitted by Prisma and so
keep their previous live values.  `uuid` is the generated uuidv4,
`verRowId` the id the store generates for the DocumentVersion row. -/
def DocumentService.updateDocument (id tenantId : String)
    (uuid verRowId : String) (file : Blob) (metadata : Option String)
    (db : DB) : Except String (Document × DB) :=
  match db.documents.find? (fun d => d.id == id && d.tenantId == tenantId) with
  | none => .error "Document not found"
  | some document =>
    let filename := uuid ++ "-" ++ document.name
    let url := uploadToSpaces file filename document.mimeType
    let ocrText : Option String :=
      if ocrAllowList.contains document.mimeType then
        some (extractTextFromDocument file document.mimeType)
      else none
    let ver : DocumentVersion :=
      { id := verRowId, documentId := id, version := document.version + 1,
        url := url, ocrText := ocrText, metadata := metadata,
        createdBy := document.createdBy }
    let doc2 : Document :=
      { document with
        version := document.version + 1,
        url := url,
        ocrText := match ocrText with
                   | some t => some t
                   | none => document.ocrText,
        metadata := match metadata with
                    | some m => some m
                    | none => document.metadata }
    .ok (doc2,
      { db with
        documentVersions := db.documentVersions ++ [ver],
        documents := db.documents.map (fun d => if d.id == id then doc2 else d) })

/-- The DocumentVersion rows belonging to a document, in insertion order. -/
def versionsOf (documentId : String) (db : DB) : List DocumentVersion :=
  db.documentVersions.filter (fun v => v.documentId == documentId)

/-- One inbound `updateDocument` call's request-scoped data: the uploaded
blob, the optional metadata record (already serialized), and the two ids
generated during the call (the uuidv4 for the storage key and the store's
id for the new DocumentVersion row). -/
structure UpdateInput where
  uuid : String
  verRowId : String
  file : Blob
  metadata : Option String
  deriving Repr, DecidableEq

/-- N successive `updateDocument` calls on the same document, failing fast
as the route handlers do. -/
def applyUpdates (id tenantId : String) (inputs : List UpdateInput)
    (db : DB) : Except String DB :=
  match inputs with
  | [] => .ok db
  | i :: rest =>
    match DocumentService.updateDocument id tenantId i.uuid i.verRowId
        i.file i.metadata db with
    | .error e => .error e
    | .ok (_, db2) => applyUpdates id tenantId rest db2

/-! ### Authentication middleware (src/src/middleware/auth.ts) and
UserService (src/src/services/userService.ts) -/

/-- The JWT payload this system signs and decodes.  `generateToken` signs
only `{ userId, tenantId }`; `authenticateToken` casts the decoded payload
to `{ userId, tenantId, role }`, so after decoding one of this system's own
tokens the `role` property is absent (`undefined`) — modelled as
`Option String` with `none` for absent. -/
structure TokenPayload where
  userId : String
  tenantId : String
  role : Option String
  deriving Repr, DecidableEq

/-- A bearer token: either signed with this process's secret (carrying its
payload) or anything else, which `jwt.verify` rejects. -/
inductive Token where
  | signed (payload : TokenPayload)
  | invalid
  deriving Repr, DecidableEq

/-- `jwt.verify` with the process secret: yields the payload of a token
signed with the same secret, throws otherwise. -/
def jwtVerify : Token → Option TokenPayload
  | .signed p => some p
  | .invalid => none

/-- `jwt.sign` with the process secret. -/
def jwtSign (p : TokenPayload) : Token := .signed p

/-- `UserService.generateToken`: `jwt.sign({ userId, tenantId }, secret)` —
note the payload carries no role claim. -/
def UserService.generateToken (userId tenantId : String) : TokenPayload :=
  { userId := userId, tenantId := tenantId, role := none }

/-- `bcrypt.hash` with a fixed salt round count, abstracted: an external
one-way function of the password. -/
def bcryptHash (password : String) : String :=
  "bcrypt$" ++ password

/-- `bcrypt.compare`: succeeds exactly when the stored hash is the hash of
the supplied password (hash collisions are not modelled). -/
def bcryptCompare (password hash : String) : Bool :=
  hash == bcryptHash password

/-- Outcome of an Express middleware step: pass the request on (with the
attached identity) or short-circuit with an HTTP status and error body. -/
inductive MwResult where
  | next (claims : TokenPayload)
  | respond (status : Nat) (error : String)
  deriving Repr, DecidableEq

/-- `authenticateToken`: 401 when no token is supplied or `jwt.verify`
rejects it; otherwise re-checks that a user with the decoded
`(userId, tenantId)` pair exists (`findFirst`), 401 when none does; on
success attaches the *decoded payload* (not the store row) as `req.user`. -/
def authenticateToken (token : Option Token) (db : DB) : MwResult :=
  match token with
  | none => .respond 401 "No token provided"
  | some tok =>
    match jwtVerify tok with
    | none => .respond 401 "Invalid token"
    | some decoded =>
      match db.users.find? (fun u =>
          u.id == decoded.userId && u.tenantId == decoded.tenantId) with
      | none => .respond 401 "Invalid token"
      | some _ => .next decoded

/-- `roles.includes(req.user.role)` where `role` may be absent
(`undefined`): on a string array, `includes(undefined)` is false. -/
def rolesIncludes (roles : List String) (role : Option String) : Bool :=
  match role with
  | some r => roles.contains r
  | none => false

/-- `requireRole(roles)`: 401 when no identity is attached, 403 when the
attached role is not in `roles`, otherwise passes the request through with
the identity unchanged. -/
def requireRole (roles : List String) (user : Option TokenPayload) :
    MwResult :=
  match user with
  | none => .respond 401 "User not authenticated"
  | some u =>
    if !(rolesIncludes roles u.role) then
      .respond 403 "Insufficient permissions"
    else .next u

/-- The middleware chain of `DELETE /api/users/:userId` up to (and
including) the role gate: `authenticateToken, requireRole(['ADMIN'])`. -/
def deleteUserGate (token : Option Token) (db : DB) : MwResult :=
  match authenticateToken token db with
  | .respond s e => .respond s e
  | .next claims => requireRole ["ADMIN"] (some claims)

/-- `CreateUserData` from userService.ts; `role` is not accepted and takes
its schema default "USER". -/
structure CreateUserData where
  email : String
  password : String
  firstName : String
  lastName : String
  tenantId : String
  deriving Repr, DecidableEq

/-- `LoginData` from userService.ts. -/
structure LoginData where
  email : String
  password : String
  deriving Repr, DecidableEq

/-- The shape `sanitizeUser` returns: every User column except
`password`, which destructuring removes. -/
structure SanitizedUser where
  id : String
  email : String
  firstName : String
  lastName : String
  role : String
  tenantId : String
  deriving Repr, DecidableEq

/-- `UserService.sanitizeUser`: `const { password, ...sanitizedUser } =
user` — drops the password property, keeps the rest. -/
def UserService.sanitizeUser (u : User) : SanitizedUser :=
  { id := u.id, email := u.email, firstName := u.firstName,
    lastName := u.lastName, role := u.role, tenantId := u.tenantId }

/-- `UserService.createUser`: rejects with `AppError('User already exists',
400)` when `findUnique({ where: { email } })` hits; otherwise hashes the
password, creates the row (role defaulting to "USER"), signs a token for
`(id, tenantId)` and returns the sanitized user with the token. -/
def UserService.createUser (newId : String) (data : CreateUserData)
    (db : DB) : Except (Nat × String) ((SanitizedUser × Token) × DB) :=
  match db.users.find? (fun u => u.email == data.email) with
  | some _ => .error (400, "User already exists")
  | none =>
    let user : User :=
      { id := newId, email := data.email,
        password := bcryptHash data.password, firstName := data.firstName,
        lastName := data.lastName, role := "USER",
        tenantId := data.tenantId }
    .ok ((UserService.sanitizeUser user,
          jwtSign (UserService.generateToken user.id user.tenantId)),
         { db with users := db.users ++ [user] })

/-- `UserService.login`: 401 `Invalid credentials` when the email is
unknown or `bcrypt.compare` fails; otherwise returns the sanitized user and
a fresh token. -/
def UserService.login (data : LoginData) (db : DB) :
    Except (Nat × String) (SanitizedUser × Token) :=
  match db.users.find? (fun u => u.email == data.email) with
  | none => .error (401, "Invalid credentials")
  | some user =>
    if bcryptCompare data.password user.password then
      .ok (UserService.sanitizeUser user,
           jwtSign (UserService.generateToken user.id user.tenantId))
    else .error (401, "Invalid credentials")

/-- `UserService.getUserProfile`: `findUnique({ where: { id } })`, 404 when
absent, sanitized user otherwise. -/
def UserService.getUserProfile (userId : String) (db : DB) :
    Except (Nat × String) SanitizedUser :=
  match db.users.find? (fun u => u.id == userId) with
  | none => .error (404, "User not found")
  | some u => .ok (UserService.sanitizeUser u)

/-- `userController.register` (`POST /api/users/register`): 201 with the
sanitized user on success; on an `AppError` the error handler responds with
its status (400 for an existing email). -/
def userController.register (newId : String) (data : CreateUserData)
    (db : DB) : (Nat × Option SanitizedUser) × DB :=
  match UserService.createUser newId data db with
  | .ok ((u, _tok), db2) => ((201, some u), db2)
  | .error (s, _) => ((s, none), db)

/-! ### Spec-modelled operation -/

/-- Modelled from the spec: the stale-derivation scenario posits "update
Fee.amount to 3000", but no service operation in the sources edits a Fee's
amount; this models that posited direct store write, changing the one fee's
amount and nothing else. -/
def setFeeAmount (id : String) (newAmount : ℚ) (db : DB) : DB :=
  { db with
    fees := db.fees.map (fun f =>
      if f.id == id then { f with amount := newAmount } else f) }

/-! ### Concrete stores used by demonstrations and witnesses -/

/-- A store whose every row belongs to tenant t1, used to probe what the
mutation endpoints do when called on behalf of tenant t2. -/
def crossTenantProbeDB : DB :=
  { users := [],
    fees := [{ id := "fee1", caseId := "case1", amount := 1000,
               description := "d", type := "FLAT", status := none,
               dueDate := 0, paidDate := none, tenantId := "t1",
               createdBy := "u1" }],
    commissions := [{ id := "com1", feeId := "fee1", userId := "u1",
                      amount := 150, percentage := 15, status := none,
                      paidDate := none, tenantId := "t1" }],
    templates := [{ id := "tpl1", name := "orig", description := none,
                    content := "c", category := "cat", vars := none,
                    tenantId := "t1", createdBy := "u1" }],
    documents := [], documentVersions := [] }

/-- The spec's stale-derivation scenario fee: amount 2000, owned by t1. -/
def specFee : Fee :=
  { id := "fee1", caseId := "case1", amount := 2000, description := "d",
    type := "FLAT", status := none, dueDate := 0, paidDate := none,
    tenantId := "t1", createdBy := "u1" }

/-- A store holding only the scenario fee. -/
def specFeeDB : DB :=
  { users := [], fees := [specFee], commissions := [], templates := [],
    documents := [], documentVersions := [] }

/-- A live document at version 1 with distinctive url/ocrText/metadata, so
that what `updateDocument` snapshots is visible.  Its MIME type
`text/plain` is outside the OCR allow-list. -/
def liveDoc : Document :=
  { id := "doc1", name := "a.txt", type := "claim",
    mimeType := "text/plain", size := 3, url := "OLD-URL",
    ocrText := some "OLD-OCR", metadata := some "m0", version := 1,
    caseId := none, tenantId := "t1", createdBy := "u1" }

/-- A store holding only `liveDoc`, with no version rows yet. -/
def liveDocDB : DB :=
  { users := [], fees := [], commissions := [], templates := [],
    documents := [liveDoc], documentVersions := [] }

/-- The store after one `updateDocument` call on `liveDocDB` (uuid "uuid1",
version-row id "ver1", empty blob, metadata "m1"). -/
def liveDocDB1 : DB :=
  match DocumentService.updateDocument "doc1" "t1" "uuid1" "ver1" []
      (some "m1") liveDocDB with
  | .ok (_, db2) => db2
  | .error _ => liveDocDB

/-- A live PDF document (MIME type on the OCR allow-list) at version 1. -/
def pdfDoc : Document :=
  { id := "doc2", name := "b.pdf", type := "claim",
    mimeType := "application/pdf", size := 3, url := "OLD-PDF-URL",
    ocrText := some "Sample extracted text from document",
    metadata := none, version := 1, caseId := none, tenantId := "t1",
    createdBy := "u1" }

/-- A store holding only `pdfDoc`. -/
def pdfDocDB : DB :=
  { users := [], fees := [], commissions := [], templates := [],
    documents := [pdfDoc], documentVersions := [] }

/-- A persisted user whose stored role is ADMIN. -/
def adminUser : User :=
  { id := "u1", email := "a@x.com", password := "bcrypt$pw",
    firstName := "A", lastName := "X", role := "ADMIN", tenantId := "t1" }

/-- A store holding only `adminUser`. -/
def adminDB : DB :=
  { users := [adminUser], fees := [], commissions := [], templates := [],
    documents := [], documentVersions := [] }

/-- The empty store. -/
def emptyDB : DB :=
  { users := [], fees := [], commissions := [], templates := [],
    documents := [], documentVersions := [] }

/-! ### List helper lemmas -/

/-- `find?` misses when every element fails the predicate. -/
theorem find?_eq_none_of_forall {α : Type} (p : α → Bool) :
    ∀ (l : List α), (∀ x ∈ l, p x = false) → l.find? p = none := by
  intro l
  induction l with
  | nil => intro h; rfl
  | cons a t ih =>
    intro h
    have ha : p a = false := h a (List.mem_cons_self a t)
    have ht : List.find? p t = none := ih (fun x hx => h x (List.mem_cons_of_mem a hx))
    simp [List.find?_cons, ha, ht]

/-- Converse direction: a missed `find?` means every element fails. -/
theorem forall_of_find?_eq_none {α : Type} (p : α → Bool) :
    ∀ (l : List α), l.find? p = none → ∀ x ∈ l, p x = false := by
  intro l
  induction l with
  | nil =>
    intro h x hx
    cases hx
  | cons a t ih =>
    intro h x hx
    by_cases hpa : p a = true
    · rw [List.find?_cons_of_pos _ hpa] at h
      cases h
    · have hpa2 : p a = false := by
        revert hpa
        cases p a <;> simp
      rw [List.find?_cons_of_neg _ (by simp [hpa2])] at h
      rcases List.mem_cons.mp hx with rfl | hxt
      · exact hpa2
      · exact ih h x hxt

/-- A row appended to a table in which nothing matched is found first. -/
theorem find?_append_singleton {α : Type} (p : α → Bool) (l : List α)
    (a : α) (h : ∀ x ∈ l, p x = false) (ha : p a = true) :
    (l ++ [a]).find? p = some a := by
  induction l with
  | nil =>
    simp [List.find?, ha]
  | cons b t ih =>
    have hb : p b = false := h b (List.mem_cons_self b t)
    rw [List.cons_append, List.find?_cons_of_neg _ (by simp [hb])]
    exact ih (fun x hx => h x (List.mem_cons_of_mem b hx))

/-- After a keyed rewrite (every element satisfying `q` replaced by `d2`),
every element satisfying `q` is `d2`. -/
theorem forall_map_update {α : Type} (q : α → Bool) (d2 : α) (l : List α) :
    ∀ g ∈ l.map (fun x => if q x then d2 else x), q g = true → g = d2 := by
  intro g hg hq
  rcases List.mem_map.mp hg with ⟨x, hx, hfx⟩
  by_cases hqx : q x = true
  · rw [← hfx]
    simp [hqx]
  · rw [← hfx] at hq
    simp [hqx] at hq

/-- A keyed rewrite moves a `find?` hit from `d` to its replacement `d2`,
provided `d` was the hit, every `q`-keyed element equals `d` (primary-key
uniqueness) and `d2` still satisfies the search predicate. -/
theorem find?_map_update {α : Type} (p q : α → Bool) (d2 : α)
    (hp2 : p d2 = true) :
    ∀ (l : List α) (d : α), l.find? p = some d →
      (∀ g ∈ l, q g = true → g = d) → q d = true →
      (l.map (fun x => if q x then d2 else x)).find? p = some d2 := by
  intro l
  induction l with
  | nil =>
    intro d h
    simp [List.find?] at h
  | cons a t ih =>
    intro d hfind huniq hqd
    rw [List.map_cons]
    by_cases hqa : q a = true
    · simp only [hqa, if_true]
      exact List.find?_cons_of_pos _ hp2
    · have hqa2 : q a = false := by
        revert hqa
        cases q a <;> simp
      have hpa : p a = false := by
        by_contra hcon
        have hpa2 : p a = true := by
          revert hcon
          cases p a <;> simp
        rw [List.find?_cons_of_pos _ hpa2] at hfind
        have had : a = d := by injection hfind
        rw [had, hqd] at hqa2
        exact Bool.true_eq_false.mp hqa2
      simp only [hqa2, if_neg, Bool.false_eq_true, if_false]
      rw [List.find?_cons_of_neg _ (by simp [hpa])]
      rw [List.find?_cons_of_neg _ (by simp [hpa])] at hfind
      exact ih d hfind (fun g hg => huniq g (List.mem_cons_of_mem a hg)) hqd

/-! ### C1: tenant isolation on reads -/

/-- C1. Tenant isolation on reads: a Fee, Template or Document owned by one
tenant is invisible to `getFee` / `getTemplate` / `getDocument` when called
with any other tenant id: the lookup returns `none` (not-found), never the
row.  Hypotheses: the row is in the store, its id is unique in its table
(primary key), and the querying tenant differs from the owner. -/
theorem getOps_tenant_isolation (db : DB) (t2 : String)
    (f : Fee) (hfmem : f ∈ db.fees) (hft : f.tenantId ≠ t2)
    (hfu : ∀ g ∈ db.fees, g.id = f.id → g = f)
    (t : Template) (htmem : t ∈ db.templates) (htt : t.tenantId ≠ t2)
    (htu : ∀ g ∈ db.templates, g.id = t.id → g = t)
    (d : Document) (hdmem : d ∈ db.documents) (hdt : d.tenantId ≠ t2)
    (hdu : ∀ g ∈ db.documents, g.id = d.id → g = d) :
    FeeService.getFee f.id t2 db = none ∧
    TemplateService.getTemplate t.id t2 db = none ∧
    DocumentService.getDocument d.id t2 db = none := by
  refine ⟨?_, ?_, ?_⟩
  · apply find?_eq_none_of_forall
    intro g hg
    by_cases hid : g.id = f.id
    · have : g = f := hfu g hg hid
      subst this
      simp [hft]
    · simp [hid]
  · apply find?_eq_none_of_forall
    intro g hg
    by_cases hid : g.id = t.id
    · have : g = t := htu g hg hid
      subst this
      simp [htt]
    · simp [hid]
  · apply find?_eq_none_of_forall
    intro g hg
    by_cases hid : g.id = d.id
    · have : g = d := hdu g hg hid
      subst this
      simp [hdt]
    · simp [hid]

/-! ### C2: the tenant-filter invariant on mutations, checked on the code -/

/-- C2. The claimed invariant fails in the code: called with tenant "t2" on
a store whose rows all belong to tenant "t1", `updateTemplate` renames
t1's template, `updateFeeStatus` marks t1's fee paid,
`updateCommissionStatus` marks t1's commission paid, `deleteTemplate`
removes t1's template, and `createCommission` reads t1's fee amount to
derive a commission — none of them behaves as not-found.  Each `where`
clause keys on the primary id alone and ignores the `tenantId` argument. -/
theorem mutations_ignore_tenant_filter :
    ((TemplateService.updateTemplate "tpl1" "t2"
        { name := some "hijacked", description := none, content := none,
          category := none, vars := none } crossTenantProbeDB).toOption.map
      (fun p => (p.1.tenantId, p.1.name)) = some ("t1", "hijacked")) ∧
    ((FeeService.updateFeeStatus "fee1" "t2" "PAID" none
        crossTenantProbeDB).toOption.map
      (fun p => (p.1.tenantId, p.1.status)) = some ("t1", some "PAID")) ∧
    ((FeeService.updateCommissionStatus "com1" "t2" "PAID" none
        crossTenantProbeDB).toOption.map
      (fun p => (p.1.tenantId, p.1.status)) = some ("t1", some "PAID")) ∧
    ((TemplateService.deleteTemplate "tpl1" "t2" crossTenantProbeDB).toOption.map
      (fun db => db.templates) = some []) ∧
    ((FeeService.createCommission "com2"
        { feeId := "fee1", userId := "u2", percentage := 15,
          tenantId := "t2" } crossTenantProbeDB).toOption.map
      (fun p => p.1.amount) = some 150) := by
  refine ⟨by decide, by decide, by decide, by decide, ?_⟩
  have h : (1000 : ℚ) * 15 / 100 = 150 := by norm_num
  simp [FeeService.createCommission, crossTenantProbeDB, List.find?, h]
  exact ⟨_, ⟨_, rfl⟩, rfl⟩

/-- Witness for C1: a two-tenant store in which tenant t2 cannot see
tenant t1's fee, template or document. -/
theorem getOps_tenant_isolation_witness :
    let f : Fee :=
      { id := "fee1", caseId := "case1", amount := 100, description := "d",
        type := "FLAT", status := none, dueDate := 0, paidDate := none,
        tenantId := "t1", createdBy := "u1" }
    let t : Template :=
      { id := "tpl1", name := "n", description := none, content := "c",
        category := "cat", vars := none, tenantId := "t1",
        createdBy := "u1" }
    let d : Document :=
      { id := "doc1", name := "n", type := "misc", mimeType := "text/plain",
        size := 1, url := "u", ocrText := none, metadata := none,
        version := 1, caseId := none, tenantId := "t1", createdBy := "u1" }
    let db : DB :=
      { users := [], fees := [f], commissions := [], templates := [t],
        documents := [d], documentVersions := [] }
    FeeService.getFee "fee1" "t2" db = none ∧
    TemplateService.getTemplate "tpl1" "t2" db = none ∧
    DocumentService.getDocument "doc1" "t2" db = none := by
  intro f t d db
  exact getOps_tenant_isolation db "t2"
    f (by simp [db]) (by simp [f]) (by intro g hg hid; simp [db] at hg; simp [hg])
    t (by simp [db]) (by simp [t]) (by intro g hg hid; simp [db] at hg; simp [hg])
    d (by simp [db]) (by simp [d]) (by intro g hg hid; simp [db] at hg; simp [hg])

/-! ### C3: commission derivation -/

/-- C3. Commission derivation: whenever the Fee lookup inside
`createCommission` finds fee `fee`, the call succeeds and persists exactly
one new Commission whose amount is `fee.amount * percentage / 100`. -/
theorem createCommission_derived_amount (newId : String)
    (data : CreateCommissionData) (db : DB) (fee : Fee)
    (hf : db.fees.find? (fun g => g.id == data.feeId) = some fee) :
    ∃ c db2,
      FeeService.createCommission newId data db = .ok (c, db2) ∧
      c.amount = fee.amount * data.percentage / 100 ∧
      c.percentage = data.percentage ∧ c.feeId = data.feeId ∧
      db2.commissions = db.commissions ++ [c] := by
  unfold FeeService.createCommission
  rw [hf]
  exact ⟨_, _, rfl, rfl, rfl, rfl, rfl⟩

/-- Witness for C3: with Fee.amount = 1000 and percentage = 15 the
persisted amount is exactly 150. -/
theorem createCommission_derived_amount_witness :
    ∃ c db2,
      FeeService.createCommission "com2"
        { feeId := "fee1", userId := "u2", percentage := 15,
          tenantId := "t1" } crossTenantProbeDB = .ok (c, db2) ∧
      c.amount = 150 := by
  obtain ⟨c, db2, hok, ham, -, -, -⟩ :=
    createCommission_derived_amount "com2"
      { feeId := "fee1", userId := "u2", percentage := 15,
        tenantId := "t1" } crossTenantProbeDB
      { id := "fee1", caseId := "case1", amount := 1000,
        description := "d", type := "FLAT", status := none, dueDate := 0,
        paidDate := none, tenantId := "t1", createdBy := "u1" }
      (by decide)
  refine ⟨c, db2, hok, ?_⟩
  rw [ham]
  norm_num

/-! ### C4: stale derivation is a frame property -/

/-- C4. Frame properties: (1) `updateFeeStatus` rewrites only the fee's
`status` (and `paidDate` when supplied), leaving its amount and every other
field, and every other table — commissions included — untouched;
(2) `createCommission` stores the derived amount in the Commission row
itself, so a later edit of the fee's amount (`setFeeAmount`, modelled from
the spec's scenario) leaves the commissions table, and hence the created
commission and its amount, unchanged. -/
theorem commission_stale_and_feeStatus_frame (id tid st : String)
    (pd : Option Nat) (db : DB) (f : Fee)
    (hf : db.fees.find? (fun g => g.id == id) = some f)
    (newId : String) (data : CreateCommissionData) (db0 : DB) (fee : Fee)
    (hfee : db0.fees.find? (fun g => g.id == data.feeId) = some fee) :
    (∃ f2 db2, FeeService.updateFeeStatus id tid st pd db = .ok (f2, db2) ∧
      f2.amount = f.amount ∧ f2.id = f.id ∧ f2.caseId = f.caseId ∧
      f2.description = f.description ∧ f2.type = f.type ∧
      f2.dueDate = f.dueDate ∧ f2.tenantId = f.tenantId ∧
      f2.createdBy = f.createdBy ∧ f2.status = some st ∧
      f2.paidDate = (match pd with | some d => some d | none => f.paidDate) ∧
      db2.commissions = db.commissions ∧ db2.users = db.users ∧
      db2.templates = db.templates ∧ db2.documents = db.documents ∧
      db2.documentVersions = db.documentVersions) ∧
    (∃ c db1, FeeService.createCommission newId data db0 = .ok (c, db1) ∧
      c.amount = fee.amount * data.percentage / 100 ∧
      ∀ a2 : ℚ,
        (setFeeAmount data.feeId a2 db1).commissions = db1.commissions ∧
        c ∈ (setFeeAmount data.feeId a2 db1).commissions) := by
  constructor
  · unfold FeeService.updateFeeStatus
    rw [hf]
    exact ⟨_, _, rfl, rfl, rfl, rfl, rfl, rfl, rfl, rfl, rfl, rfl, rfl,
           rfl, rfl, rfl, rfl, rfl⟩
  · unfold FeeService.createCommission
    rw [hfee]
    refine ⟨_, _, rfl, rfl, ?_⟩
    intro a2
    refine ⟨rfl, ?_⟩
    show _ ∈ db0.commissions ++ [_]
    simp

/-- Witness for C4, the spec scenario: Fee.amount = 2000, percentage = 10
gives commission amount 200, and the amount is still 200 in the store after
the fee's amount is raised to 3000. -/
theorem commission_stale_and_feeStatus_frame_witness :
    ∃ c db1,
      FeeService.createCommission "com1"
        { feeId := "fee1", userId := "u1", percentage := 10,
          tenantId := "t1" } specFeeDB = .ok (c, db1) ∧
      c.amount = 200 ∧
      c ∈ (setFeeAmount "fee1" 3000 db1).commissions := by
  obtain ⟨-, h2⟩ :=
    commission_stale_and_feeStatus_frame "fee1" "t1" "PAID" none specFeeDB
      specFee (by decide) "com1"
      { feeId := "fee1", userId := "u1", percentage := 10,
        tenantId := "t1" } specFeeDB specFee (by decide)
  obtain ⟨c, db1, hc, ham, hall⟩ := h2
  refine ⟨c, db1, hc, ?_, (hall 3000).2⟩
  rw [ham]
  norm_num [specFee]

/-! ### C5: document version bookkeeping -/

/-- One successful `updateDocument` step: the live row is bumped to
`version + 1` and remains the unique row under its id; exactly one
DocumentVersion row is appended for the document, numbered `version + 1`. -/
theorem updateDocument_step (id tenantId uuid verRowId : String)
    (file : Blob) (metadata : Option String) (db : DB) (d : Document)
    (hfind : db.documents.find?
        (fun x => x.id == id && x.tenantId == tenantId) = some d)
    (huniq : ∀ g ∈ db.documents, (g.id == id) = true → g = d) :
    ∃ d2 db2 ver,
      DocumentService.updateDocument id tenantId uuid verRowId file metadata
          db = .ok (d2, db2) ∧
      d2.version = d.version + 1 ∧
      db2.documents.find?
          (fun x => x.id == id && x.tenantId == tenantId) = some d2 ∧
      (∀ g ∈ db2.documents, (g.id == id) = true → g = d2) ∧
      ver.documentId = id ∧ ver.version = d.version + 1 ∧
      db2.documentVersions = db.documentVersions ++ [ver] ∧
      versionsOf id db2 = versionsOf id db ++ [ver] := by
  have hpd := List.find?_some hfind
  simp only [Bool.and_eq_true] at hpd
  have hqd : (d.id == id) = true := hpd.1
  have hpd2 : (d.id == id && d.tenantId == tenantId) = true := by
    simp [hpd.1, hpd.2]
  unfold DocumentService.updateDocument
  rw [hfind]
  refine ⟨_, _, _, rfl, rfl, ?_, ?_, rfl, rfl, rfl, ?_⟩
  · refine find?_map_update _ _ _ ?_ db.documents d hfind huniq hqd
    exact hpd2
  · exact forall_map_update _ _ db.documents
  · simp [versionsOf, List.filter_append]

/-- Iterating `updateDocument`: starting from a store in which `d` is the
unique document under its id, N successful updates leave the live version
at `d.version + N` and append exactly the version numbers
`d.version + 1, …, d.version + N`, in order, to the document's
DocumentVersion rows. -/
theorem applyUpdates_invariant (id tenantId : String) :
    ∀ (inputs : List UpdateInput) (db : DB) (d : Document),
      db.documents.find?
          (fun x => x.id == id && x.tenantId == tenantId) = some d →
      (∀ g ∈ db.documents, (g.id == id) = true → g = d) →
      ∃ db2 d2,
        applyUpdates id tenantId inputs db = .ok db2 ∧
        db2.documents.find?
            (fun x => x.id == id && x.tenantId == tenantId) = some d2 ∧
        d2.version = d.version + inputs.length ∧
        (versionsOf id db2).map (fun v => v.version) =
          (versionsOf id db).map (fun v => v.version) ++
            List.range' (d.version + 1) inputs.length := by
  intro inputs
  induction inputs with
  | nil =>
    intro db d h1 h2
    exact ⟨db, d, rfl, h1, by simp, by simp⟩
  | cons i rest ih =>
    intro db d h1 h2
    obtain ⟨d2, db2, ver, hok, hv, hfind2, huniq2, hvid, hvver, hvs, hvsOf⟩ :=
      updateDocument_step id tenantId i.uuid i.verRowId i.file i.metadata
        db d h1 h2
    obtain ⟨db3, d3, hok3, hfind3, hv3, hmap3⟩ := ih db2 d2 hfind2 huniq2
    refine ⟨db3, d3, ?_, hfind3, ?_, ?_⟩
    · show applyUpdates id tenantId (i :: rest) db = .ok db3
      unfold applyUpdates
      rw [hok]
      exact hok3
    · rw [hv3, hv, List.length_cons]
      omega
    · rw [hmap3, hvsOf, hv, List.length_cons, List.map_append]
      rw [List.range'_succ]
      simp [hvver, List.append_assoc]

/-- C5 (amended). Document version bookkeeping: for a document created at
version 1 with no version rows, after N successful `updateDocument` calls
the live `version` equals N + 1, exactly N DocumentVersion rows exist for
the document, and they carry the distinct version numbers 2 .. N + 1 in
upload order (so `Document.version` always equals the row count + 1). -/
theorem document_version_bookkeeping (id tenantId : String)
    (inputs : List UpdateInput) (db : DB) (d : Document)
    (hfind : db.documents.find?
        (fun x => x.id == id && x.tenantId == tenantId) = some d)
    (huniq : ∀ g ∈ db.documents, (g.id == id) = true → g = d)
    (hv1 : d.version = 1)
    (hnone : versionsOf id db = []) :
    ∃ db2 d2,
      applyUpdates id tenantId inputs db = .ok db2 ∧
      db2.documents.find?
          (fun x => x.id == id && x.tenantId == tenantId) = some d2 ∧
      d2.version = inputs.length + 1 ∧
      (versionsOf id db2).map (fun v => v.version) =
        List.range' 2 inputs.length ∧
      (versionsOf id db2).length = inputs.length ∧
      d2.version = (versionsOf id db2).length + 1 := by
  obtain ⟨db2, d2, h1, h2, h3, h4⟩ :=
    applyUpdates_invariant id tenantId inputs db d hfind huniq
  rw [hnone, hv1] at h4
  simp only [List.map_nil, List.nil_append] at h4
  rw [hv1] at h3
  have hlen : (versionsOf id db2).length = inputs.length := by
    have hc := congrArg List.length h4
    simpa [List.length_map, List.length_range'] using hc
  refine ⟨db2, d2, h1, h2, by omega, ?_, hlen, by omega⟩
  simpa using h4

/-- Counterexample to C5 as stated: after N = 1 successful update on a
freshly created document, exactly one DocumentVersion row exists, but it
carries version number 2, not the claimed 1 (= N). -/
theorem document_version_numbers_counterexample :
    (versionsOf "doc1" liveDocDB1).length = 1 ∧
    (versionsOf "doc1" liveDocDB1).map (fun v => v.version) = [2] ∧
    ¬((versionsOf "doc1" liveDocDB1).map (fun v => v.version) = [1]) := by
  decide

/-- Witness for C5: two successful updates on `liveDocDB` leave the live
version at 3 with version rows numbered 2, 3 in order. -/
theorem document_version_bookkeeping_witness :
    ∃ db2 d2,
      applyUpdates "doc1" "t1"
        [{ uuid := "uuidA", verRowId := "verA", file := [],
           metadata := none },
         { uuid := "uuidB", verRowId := "verB", file := [],
           metadata := none }] liveDocDB = .ok db2 ∧
      db2.documents.find?
          (fun x => x.id == "doc1" && x.tenantId == "t1") = some d2 ∧
      d2.version = 3 ∧
      (versionsOf "doc1" db2).map (fun v => v.version) = [2, 3] ∧
      (versionsOf "doc1" db2).length = 2 := by
  obtain ⟨db2, d2, h1, h2, h3, h4, h5, h6⟩ :=
    document_version_bookkeeping "doc1" "t1"
      [{ uuid := "uuidA", verRowId := "verA", file := [],
         metadata := none },
       { uuid := "uuidB", verRowId := "verB", file := [],
         metadata := none }] liveDocDB liveDoc
      (by decide) (by decide) (by decide) (by decide)
  refine ⟨db2, d2, h1, h2, h3, ?_, h5⟩
  rw [h4]
  decide

/-! ### C6: what the version row snapshots -/

/-- C6 (amended). Each successful `updateDocument` inserts a
DocumentVersion row carrying the NEWLY uploaded content — the fresh url,
the ocrText computed for the new blob (gated on the stored MIME type), and
the newly supplied metadata — numbered `previous version + 1`; it does not
snapshot the previous live state.  The live row then receives the same new
url, while live `ocrText`/`metadata` are overwritten only when the new
value is present (a Prisma `undefined` field is omitted, so the old live
value persists). -/
theorem updateDocument_snapshots_new_content
    (id tenantId uuid verRowId : String) (file : Blob)
    (metadata : Option String) (db : DB) (d : Document)
    (hfind : db.documents.find?
        (fun x => x.id == id && x.tenantId == tenantId) = some d) :
    ∃ d2 db2 ver,
      DocumentService.updateDocument id tenantId uuid verRowId file metadata
          db = .ok (d2, db2) ∧
      db2.documentVersions = db.documentVersions ++ [ver] ∧
      ver.version = d.version + 1 ∧
      ver.url = doSpacesCdnUrl ++ "/" ++ (uuid ++ "-" ++ d.name) ∧
      ver.ocrText = (if ocrAllowList.contains d.mimeType then
        some (extractTextFromDocument file d.mimeType) else none) ∧
      ver.metadata = metadata ∧
      d2.url = ver.url ∧
      d2.ocrText = (match ver.ocrText with
                    | some t => some t
                    | none => d.ocrText) ∧
      d2.metadata = (match metadata with
                     | some m => some m
                     | none => d.metadata) ∧
      d2.version = d.version + 1 := by
  unfold DocumentService.updateDocument
  rw [hfind]
  exact ⟨_, _, _, rfl, rfl, rfl, rfl, rfl, rfl, rfl, rfl, rfl, rfl⟩

/-- Counterexample to C6 as stated: on a document whose live state was
url "OLD-URL", ocrText "OLD-OCR", metadata "m0", the version row inserted
by an update carries the NEW url, the NEW (here: absent) ocrText and the
NEW metadata "m1" — not the previous live state. -/
theorem version_snapshot_counterexample :
    (versionsOf "doc1" liveDocDB1).map
        (fun v => (v.url, v.ocrText, v.metadata)) =
      [("https://cdn.example/uuid1-a.txt", none, some "m1")] ∧
    (liveDoc.url, liveDoc.ocrText, liveDoc.metadata) =
      ("OLD-URL", some "OLD-OCR", some "m0") ∧
    ¬((versionsOf "doc1" liveDocDB1).map
        (fun v => (v.url, v.ocrText, v.metadata)) =
      [(liveDoc.url, liveDoc.ocrText, liveDoc.metadata)]) := by
  decide

/-- Witness for C6 at a concrete input (non-allow-listed MIME type, new
metadata "m1"): the inserted row holds the new url/ocrText/metadata, and
the live ocrText survives because the new one is absent. -/
theorem updateDocument_snapshots_new_content_witness :
    ∃ d2 db2 ver,
      DocumentService.updateDocument "doc1" "t1" "uuid1" "ver1" []
          (some "m1") liveDocDB = .ok (d2, db2) ∧
      db2.documentVersions = liveDocDB.documentVersions ++ [ver] ∧
      ver.version = liveDoc.version + 1 ∧
      ver.url = doSpacesCdnUrl ++ "/" ++ ("uuid1" ++ "-" ++ liveDoc.name) ∧
      ver.ocrText = (if ocrAllowList.contains liveDoc.mimeType then
        some (extractTextFromDocument [] liveDoc.mimeType) else none) ∧
      ver.metadata = some "m1" ∧
      d2.url = ver.url ∧
      d2.ocrText = (match ver.ocrText with
                    | some t => some t
                    | none => liveDoc.ocrText) ∧
      d2.metadata = (match some "m1" with
                     | some m => some m
                     | none => liveDoc.metadata) ∧
      d2.version = liveDoc.version + 1 :=
  updateDocument_snapshots_new_content "doc1" "t1" "uuid1" "ver1" []
    (some "m1") liveDocDB liveDoc (by decide)

/-! ### C7: the OCR allow-list -/

/-- C7. `createDocument` populates `ocrText` exactly when the declared
`data.mimeType` is on the allow-list (pdf/jpeg/png), omitting it otherwise;
`updateDocument` decides OCR eligibility for the new blob by re-checking
the allow-list against the EXISTING document's stored MIME type — the
resulting ocrText is the same for every uploaded blob `file2` and depends
only on `d.mimeType`. -/
theorem ocr_allowlist_policy (newId uuid : String) (file : Blob)
    (data : CreateDocumentData) (metadata : Option String) (db : DB)
    (id tenantId uuid2 verRowId : String) (m2 : Option String)
    (db0 : DB) (d : Document)
    (hfind : db0.documents.find?
        (fun x => x.id == id && x.tenantId == tenantId) = some d) :
    ((DocumentService.createDocument newId uuid file data metadata
        db).1.ocrText =
      if ocrAllowList.contains data.mimeType then
        some (extractTextFromDocument file data.mimeType) else none) ∧
    ((DocumentService.createDocument newId uuid file data metadata
        db).1.ocrText.isSome ↔ data.mimeType ∈ ocrAllowList) ∧
    (∀ file2 : Blob, ∃ d2 db2 ver,
      DocumentService.updateDocument id tenantId uuid2 verRowId file2 m2 db0
          = .ok (d2, db2) ∧
      db2.documentVersions = db0.documentVersions ++ [ver] ∧
      ver.ocrText = (if ocrAllowList.contains d.mimeType then
        some "Sample extracted text from document" else none) ∧
      (ver.ocrText.isSome ↔ d.mimeType ∈ ocrAllowList)) := by
  refine ⟨rfl, ?_, ?_⟩
  · show (if ocrAllowList.contains data.mimeType then
        some (extractTextFromDocument file data.mimeType)
      else none).isSome ↔ data.mimeType ∈ ocrAllowList
    by_cases hm : data.mimeType ∈ ocrAllowList
    · have hc : ocrAllowList.contains data.mimeType = true := by
        simpa [List.contains] using hm
      simp [hc, hm]
    · have hc : ocrAllowList.contains data.mimeType = false := by
        simpa [List.contains] using hm
      simp [hc, hm]
  · intro file2
    unfold DocumentService.updateDocument
    rw [hfind]
    refine ⟨_, _, _, rfl, rfl, rfl, ?_⟩
    show (if ocrAllowList.contains d.mimeType then
        some (extractTextFromDocument file2 d.mimeType)
      else none).isSome ↔ d.mimeType ∈ ocrAllowList
    by_cases hm : d.mimeType ∈ ocrAllowList
    · have hc : ocrAllowList.contains d.mimeType = true := by
        simpa [List.contains] using hm
      simp [hc, hm]
    · have hc : ocrAllowList.contains d.mimeType = false := by
        simpa [List.contains] using hm
      simp [hc, hm]

/-- Witness for C7: creating with declared type text/plain omits ocrText;
updating a stored application/pdf document populates the version row's
ocrText with the stub, whatever the new blob is. -/
theorem ocr_allowlist_policy_witness :
    ((DocumentService.createDocument "doc9" "uuid9" [1]
        { name := "n.txt", type := "misc", mimeType := "text/plain",
          size := 1, caseId := none, tenantId := "t1", createdBy := "u1",
          metadata := none } none liveDocDB).1.ocrText = none) ∧
    (∃ d2 db2 ver,
      DocumentService.updateDocument "doc2" "t1" "uuid8" "ver8" [7] none
          pdfDocDB = .ok (d2, db2) ∧
      db2.documentVersions = pdfDocDB.documentVersions ++ [ver] ∧
      ver.ocrText = some "Sample extracted text from document") := by
  obtain ⟨h1, h2, h3⟩ :=
    ocr_allowlist_policy "doc9" "uuid9" [1]
      { name := "n.txt", type := "misc", mimeType := "text/plain",
        size := 1, caseId := none, tenantId := "t1", createdBy := "u1",
        metadata := none } none liveDocDB
      "doc2" "t1" "uuid8" "ver8" none pdfDocDB pdfDoc (by decide)
  obtain ⟨d2, db2, ver, hu1, hu2, hu3, hu4⟩ := h3 [7]
  refine ⟨?_, d2, db2, ver, hu1, hu2, ?_⟩
  · rw [h1]
    decide
  · rw [hu3]
    decide

/-! ### C8: the role gate -/

/-- C8. Role gate: for every authenticated request (`requireRole` sees the
attached identity), it responds 403 Forbidden exactly when the attached
role is not in `roles`, and otherwise passes the request through with the
identity unchanged.  On the `DELETE /api/users/:userId` chain
(`authenticateToken, requireRole(['ADMIN'])`), an authenticated non-ADMIN
identity receives 403 whatever its tenant, and an ADMIN identity is passed
through. -/
theorem requireRole_gate (roles : List String) (claims : TokenPayload)
    (db : DB) (tok : Token)
    (hauth : authenticateToken (some tok) db = .next claims) :
    (requireRole roles (some claims) =
        .respond 403 "Insufficient permissions" ↔
      rolesIncludes roles claims.role = false) ∧
    (rolesIncludes roles claims.role = true →
      requireRole roles (some claims) = .next claims) ∧
    (rolesIncludes ["ADMIN"] claims.role = false →
      deleteUserGate (some tok) db =
        .respond 403 "Insufficient permissions") ∧
    (claims.role = some "ADMIN" →
      deleteUserGate (some tok) db = .next claims) := by
  have hadm : rolesIncludes ["ADMIN"] (some "ADMIN") = true := by decide
  refine ⟨?_, ?_, ?_, ?_⟩
  · constructor
    · intro h
      by_contra hne
      have ht : rolesIncludes roles claims.role = true := by
        revert hne
        cases rolesIncludes roles claims.role <;> simp
      simp [requireRole, ht] at h
    · intro h
      simp [requireRole, h]
  · intro h
    simp [requireRole, h]
  · intro h
    unfold deleteUserGate
    rw [hauth]
    simp [requireRole, h]
  · intro h
    unfold deleteUserGate
    rw [hauth]
    simp [requireRole, h, hadm]

/-- Witness for C8: a request authenticated as an ADJUSTER of the same
tenant as the stored user is refused with 403 by the delete-user chain. -/
theorem requireRole_gate_witness :
    deleteUserGate
      (some (jwtSign
        { userId := "u1", tenantId := "t1", role := some "ADJUSTER" }))
      adminDB = .respond 403 "Insufficient permissions" := by
  have h :=
    requireRole_gate ["ADMIN"]
      { userId := "u1", tenantId := "t1", role := some "ADJUSTER" } adminDB
      (jwtSign
        { userId := "u1", tenantId := "t1", role := some "ADJUSTER" })
      (by decide)
  exact h.2.2.1 (by decide)

/-! ### C9: registration, duplicate email, sanitization -/

/-- C9. Registration and sanitization: with a fresh email, register
responds 201 with a sanitized user carrying the same email; the sanitized
shape carries no password (it is invariant under the password field);
registering the same email again responds 400; logging in with the same
credentials then succeeds with a token for the new user, authenticating
that token attaches its identity, and the profile lookup returns the same
sanitized (password-free) user. -/
theorem register_sanitized (newId : String) (data : CreateUserData)
    (db : DB)
    (hfresh : db.users.find? (fun u => u.email == data.email) = none)
    (hid : ∀ u ∈ db.users, (u.id == newId) = false) :
    ∃ su db2,
      userController.register newId data db = ((201, some su), db2) ∧
      su.email = data.email ∧
      (∀ u : User, ∀ p1 p2 : String,
        UserService.sanitizeUser { u with password := p1 } =
        UserService.sanitizeUser { u with password := p2 }) ∧
      userController.register newId data db2 = ((400, none), db2) ∧
      (∃ su2 : SanitizedUser,
        UserService.login
          { email := data.email, password := data.password } db2 =
          .ok (su2,
            jwtSign (UserService.generateToken newId data.tenantId)) ∧
        su2.email = data.email) ∧
      authenticateToken
          (some (jwtSign (UserService.generateToken newId data.tenantId)))
          db2 = .next (UserService.generateToken newId data.tenantId) ∧
      UserService.getUserProfile newId db2 = .ok su := by
  set u0 : User :=
    { id := newId, email := data.email,
      password := bcryptHash data.password, firstName := data.firstName,
      lastName := data.lastName, role := "USER",
      tenantId := data.tenantId } with hu0
  have hfreshF := forall_of_find?_eq_none _ _ hfresh
  have hfindEmail2 :
      (db.users ++ [u0]).find? (fun u => u.email == data.email) = some u0 :=
    find?_append_singleton _ _ _ hfreshF (by simp [hu0])
  have hfindId :
      (db.users ++ [u0]).find? (fun u => u.id == newId) = some u0 :=
    find?_append_singleton _ _ _ (fun x hx => hid x hx) (by simp [hu0])
  have hfindIdT :
      (db.users ++ [u0]).find?
        (fun v => v.id == newId && v.tenantId == data.tenantId) = some u0 :=
    find?_append_singleton _ _ _
      (fun x hx => by simp [hid x hx]) (by simp [hu0])
  refine ⟨UserService.sanitizeUser u0,
          { db with users := db.users ++ [u0] }, ?_, rfl,
          fun u p1 p2 => rfl, ?_, ?_, ?_, ?_⟩
  · unfold userController.register UserService.createUser
    rw [hfresh]
  · unfold userController.register UserService.createUser
    rw [show ({ db with users := db.users ++ [u0] } : DB).users
          = db.users ++ [u0] from rfl, hfindEmail2]
  · refine ⟨UserService.sanitizeUser u0, ?_, rfl⟩
    unfold UserService.login
    rw [show ({ db with users := db.users ++ [u0] } : DB).users
          = db.users ++ [u0] from rfl, hfindEmail2]
    have hcmp2 : bcryptCompare data.password (bcryptHash data.password)
        = true := by
      simp [bcryptCompare]
    simp [hu0, hcmp2]
  · unfold authenticateToken
    simp only [jwtSign, jwtVerify, UserService.generateToken]
    rw [hfindIdT]
  · unfold UserService.getUserProfile
    rw [show ({ db with users := db.users ++ [u0] } : DB).users
          = db.users ++ [u0] from rfl, hfindId]

/-- Witness for C9: registering a@x.com on the empty store returns 201
with a sanitized user whose email is a@x.com. -/
theorem register_sanitized_witness :
    ∃ su db2,
      userController.register "u9"
        { email := "a@x.com", password := "pw", firstName := "A",
          lastName := "X", tenantId := "T1" } emptyDB =
        ((201, some su), db2) ∧
      su.email = "a@x.com" := by
  obtain ⟨su, db2, h1, h2, -, -, -, -, -⟩ :=
    register_sanitized "u9"
      { email := "a@x.com", password := "pw", firstName := "A",
        lastName := "X", tenantId := "T1" } emptyDB (by decide) (by decide)
  exact ⟨su, db2, h1, h2⟩

/-! ### C10: issued tokens carry no role, so role gates always refuse -/

/-- C10. Every token this system issues (`generateToken`) carries only
userId and tenantId — its role claim is absent; `authenticateToken`
attaches the decoded payload as the identity, so for any request
authenticated with such a token `requireRole` responds 403 for every role
list, even when the persisted user's role is ADMIN. -/
theorem issued_tokens_lack_role_gate_403 (uid tid : String)
    (roles : List String) (db : DB) (u : User)
    (hfind : db.users.find?
        (fun v => v.id == uid && v.tenantId == tid) = some u) :
    (UserService.generateToken uid tid).role = none ∧
    authenticateToken (some (jwtSign (UserService.generateToken uid tid)))
        db = .next (UserService.generateToken uid tid) ∧
    requireRole roles (some (UserService.generateToken uid tid)) =
      .respond 403 "Insufficient permissions" := by
  refine ⟨rfl, ?_, rfl⟩
  unfold authenticateToken
  simp only [jwtSign, jwtVerify, UserService.generateToken]
  rw [hfind]

/-- Witness for C10: the stored user's role is ADMIN, the token
authenticates, and requireRole(["ADMIN"]) still responds 403. -/
theorem issued_tokens_lack_role_gate_403_witness :
    adminUser.role = "ADMIN" ∧
    authenticateToken
        (some (jwtSign (UserService.generateToken "u1" "t1"))) adminDB =
      .next (UserService.generateToken "u1" "t1") ∧
    requireRole ["ADMIN"]
        (some (UserService.generateToken "u1" "t1")) =
      .respond 403 "Insufficient permissions" := by
  obtain ⟨-, h2, h3⟩ :=
    issued_tokens_lack_role_gate_403 "u1" "t1" ["ADMIN"] adminDB adminUser
      (by decide)
  exact ⟨rfl, h2, h3⟩
